import Mathlib

/-!
Shallow embedding of the `DisTube` class of `src/DisTube.ts` together with
the enums of `src/type.ts`. The repository ships only these two files; the
collaborating classes (`Queue`, `TaskQueue`, `QueueManager`, the handler and
the plugins) appear here as models built from the specification, each marked
`Modelled from the spec:` in its doc comment, or as oracle parameters when
only their outcome matters. Asynchronous effects are embedded as explicit
traces of the operations a call performs, in the order it performs them.
-/

/-- Machine-checkable error kinds mirroring the DisTubeError codes thrown in
`src/DisTube.ts` and the error taxonomy of the spec (section 7). `UPSTREAM`
stands for a non-DisTubeError raised by an excluded collaborator and
`PLAY_ERROR` for such an error after `play()` renamed it in its catch
clause. -/
inductive ErrKind
  | INVALID_TYPE (param : String)
  | EMPTY_ARRAY
  | NO_VALID_SONG
  | NO_RESULT
  | NO_QUEUE
  | NUMBER_COMPARE (param : String)
  | QUEUE_EXISTS
  | NO_UP_NEXT
  | NO_PREVIOUS
  | NO_SONG_POSITION
  | NO_RELATED
  | INVALID_STATE (what : String)
  | UPSTREAM (code : Nat)
  | PLAY_ERROR (code : Nat)
  deriving DecidableEq, Repr

/-- The spec's invalid-argument error class (section 7): wrong type or shape
of a parameter, or a number failing a comparison check. -/
def ErrKind.isInvalidArgument : ErrKind → Bool
  | .INVALID_TYPE _ => true
  | .NUMBER_COMPARE _ => true
  | _ => false

/-- Whether an error is a DisTubeError (as tested by `e instanceof
DisTubeError` in the catch clause of `play()`). -/
def ErrKind.isDisTubeError : ErrKind → Bool
  | .UPSTREAM _ => false
  | .PLAY_ERROR _ => false
  | _ => true

/-- Result of the JavaScript `Number()` conversion: NaN or a numeric value.
JS doubles are modelled as rationals; the code under study only ever
distinguishes NaN, zero and non-zero. -/
inductive JSNum
  | nan
  | num (x : ℚ)
  deriving DecidableEq, Repr

/-- A small universe of JavaScript values used for the loosely typed option
fields that `search()` validates with `typeof` checks. -/
inductive JSVal
  | undef
  | numV (x : ℚ)
  | nanV
  | strV (s : String)
  | boolV (b : Bool)
  | objV
  deriving DecidableEq, Repr

/-- JS `typeof v === "number"` (NaN is a number in JS). -/
def JSVal.isNumber : JSVal → Bool
  | .numV _ => true
  | .nanV => true
  | _ => false

/-- JS `typeof v === "boolean"`. -/
def JSVal.isBoolean : JSVal → Bool
  | .boolV _ => true
  | _ => false

/-- JS first-or-second of two optional values, as produced by spreading an
options object over a defaults object: an absent field falls back to the
default (a field explicitly set to `undefined` is identified with an absent
one). -/
def optOr {α : Type} : Option α → Option α → Option α
  | some a, _ => some a
  | none, d => d

/-- JS test `x && !valid(x)` used by the argument validations of `play()`:
true when the optional value is present but fails its instance check. -/
def optInvalid {α : Type} (valid : α → Bool) : Option α → Bool
  | none => false
  | some a => !valid a

/-- `src/type.ts` lines 293-297: the repeat mode of a Queue,
`DISABLED` = 0, `SONG` = 1, `QUEUE` = 2. -/
inductive RepeatMode
  | DISABLED
  | SONG
  | QUEUE
  deriving DecidableEq, Repr

/-- The numeric value of a RepeatMode member (`src/type.ts`). -/
def RepeatMode.toNat : RepeatMode → Nat
  | .DISABLED => 0
  | .SONG => 1
  | .QUEUE => 2

/-- The spec's playback state of a Queue (section 3):
`playing | paused | stopped`. -/
inductive PlaybackState
  | playing
  | paused
  | stopped
  deriving DecidableEq, Repr

/-- A resolved Song as far as the core needs it: an identity, a duration and
the precomputed related-song list (spec section 3); produced by the excluded
resolver. -/
structure Song where
  id : Nat
  duration : ℚ
  related : List Nat
  deriving DecidableEq, Repr

/-- Modelled from the spec: the `TaskQueue` class is not under `src/` (only
its use in `DisTube.play` is). Spec section 4.1: a FIFO of pending tasks,
each flagged resolve-class or not; `queuing(b)` appends a waiter, `resolve()`
completes the head, and `hasResolveTask` reports whether a resolve-class
task is currently queued or running. -/
structure TaskQueue where
  tasks : List Bool
  deriving DecidableEq, Repr

/-- The `hasResolveTask` flag: some queued or running task is
resolve-class. -/
def TaskQueue.hasResolveTask (tq : TaskQueue) : Bool :=
  tq.tasks.any id

/-- `queuing(isResolveTask)`: append a waiter to the FIFO. -/
def TaskQueue.queuing (tq : TaskQueue) (isResolveTask : Bool) : TaskQueue :=
  ⟨tq.tasks ++ [isResolveTask]⟩

/-- `resolve()`: the current (head) task completes and is removed. -/
def TaskQueue.dequeue (tq : TaskQueue) : TaskQueue :=
  ⟨tq.tasks.drop 1⟩

/-- Modelled from the spec: the `Queue` class is not under `src/` (only its
callers in `DisTube` are). Spec section 3: ordered upcoming songs (head =
current song), bounded-or-not history of previous songs, playback state,
repeat mode, autoplay flag, volume (also pushed to the active stream),
elapsed-time counter, and the serializing task queue. -/
structure Queue where
  songs : List Song
  previousSongs : List Song
  savePreviousSongs : Bool
  state : PlaybackState
  repeatMode : RepeatMode
  autoplay : Bool
  volume : ℚ
  streamVolume : ℚ
  currentTime : ℚ
  taskQueue : TaskQueue
  deriving DecidableEq, Repr

/-- Modelled from the spec: `Queue.pause` is not under `src/`. Spec section
4.2: toggles playback state; fails if already in the target state or if
stopped. -/
def Queue.pause (q : Queue) : Except ErrKind Queue :=
  match q.state with
  | .playing => .ok { q with state := .paused }
  | _ => .error (.INVALID_STATE "pause")

/-- Modelled from the spec: `Queue.resume` is not under `src/`. Spec section
4.2: fails unless currently paused. -/
def Queue.resume (q : Queue) : Except ErrKind Queue :=
  match q.state with
  | .paused => .ok { q with state := .playing }
  | _ => .error (.INVALID_STATE "resume")

/-- Modelled from the spec: `Queue.stop` is not under `src/`. Spec section
4.2: halts the stream; the queue reaches its terminal stopped state. -/
def Queue.stop (q : Queue) : Queue :=
  { q with state := .stopped, songs := [] }

/-- Modelled from the spec: `Queue.setVolume` is not under `src/`. Spec
section 4.2: validates `percent > 0`; applies immediately to the active
stream. -/
def Queue.setVolume (q : Queue) (percent : ℚ) : Except ErrKind Queue :=
  if 0 < percent then .ok { q with volume := percent, streamVolume := percent }
  else .error (.NUMBER_COMPARE "percent")

/-- Modelled from the spec: `Queue.addRelatedSong` is not under `src/`. Spec
section 4.2: picks the next entry of the current song's related list that is
not already in history, resolves it (the excluded resolver is modelled as an
id-preserving fetch) and enqueues it; fails with a no-related condition if
the list is empty or exhausted. -/
def Queue.addRelatedSong (q : Queue) : Except ErrKind (Queue × Song) :=
  match q.songs with
  | [] => .error .NO_RELATED
  | cur :: _ =>
    match cur.related.filter (fun i => !(q.previousSongs.any (fun s => s.id = i))) with
    | [] => .error .NO_RELATED
    | i :: _ =>
      let s : Song := ⟨i, 0, []⟩
      .ok ({ q with songs := q.songs ++ [s] }, s)

/-- Modelled from the spec: `Queue.skip` is not under `src/`. Spec section
4.2: discards the current song and advances to the next, bypassing
repeat-song mode; if there is no next song it fetches a related song when
autoplay is set, and fails otherwise. -/
def Queue.skip (q : Queue) : Except ErrKind (Queue × Song) :=
  match q.songs with
  | cur :: next :: rest =>
    .ok ({ q with
            songs := next :: rest,
            previousSongs := if q.savePreviousSongs then q.previousSongs ++ [cur] else q.previousSongs },
         next)
  | _ =>
    if q.autoplay then
      match Queue.addRelatedSong q with
      | .error e => .error e
      | .ok (q2, _) =>
        match q2.songs with
        | cur :: next :: rest =>
          .ok ({ q2 with
                  songs := next :: rest,
                  previousSongs := if q2.savePreviousSongs then q2.previousSongs ++ [cur] else q2.previousSongs },
               next)
        | _ => .error .NO_UP_NEXT
    else .error .NO_UP_NEXT

/-- Modelled from the spec: `Queue.previous` is not under `src/`. Spec
section 4.2: requires history enabled and non-empty; re-queues the most
recent history entry as current; fails otherwise. -/
def Queue.previous (q : Queue) : Except ErrKind (Queue × Song) :=
  if !q.savePreviousSongs then .error .NO_PREVIOUS
  else
    match q.previousSongs.getLast? with
    | none => .error .NO_PREVIOUS
    | some s => .ok ({ q with songs := s :: q.songs, previousSongs := q.previousSongs.dropLast }, s)

/-- One draw of the Fisher-Yates-style selection used to model
`Queue.shuffle`: repeatedly pick a position from the random stream and move
that element to the front of the remainder. -/
def shuffleGo : Nat → List Nat → List Song → List Song
  | 0, _, rest => rest
  | _ + 1, _, [] => []
  | n + 1, rand, l =>
    let k := rand.headD 0 % l.length
    l.getD k ⟨0, 0, []⟩ :: shuffleGo n (rand.drop 1) (l.eraseIdx k)

/-- Modelled from the spec: `Queue.shuffle` is not under `src/`. Spec
section 4.2: randomizes the order of the upcoming songs only, keeping the
currently playing song (the head) in place; the randomness source is
supplied as a stream of draws. -/
def Queue.shuffle (q : Queue) (rand : List Nat) : Queue :=
  match q.songs with
  | [] => q
  | cur :: rest => { q with songs := cur :: shuffleGo rest.length rand rest }

/-- Modelled from the spec: `Queue.jump` is not under `src/`. Spec section
4.2: a relative index — positive into the upcoming songs, negative into
history, `0` invalid; fails when out of bounds, otherwise makes the target
the current song. -/
def Queue.jump (q : Queue) (num : Int) : Except ErrKind Queue :=
  if num = 0 then .error .NO_SONG_POSITION
  else if 0 < num then
    if num < q.songs.length then .ok { q with songs := q.songs.drop num.toNat }
    else .error .NO_SONG_POSITION
  else
    if (-num).toNat ≤ q.previousSongs.length then
      .ok { q with
              songs := (q.previousSongs.drop (q.previousSongs.length - (-num).toNat)) ++ q.songs,
              previousSongs := q.previousSongs.take (q.previousSongs.length - (-num).toNat) }
    else .error .NO_SONG_POSITION

/-- Modelled from the spec: `Queue.setRepeatMode` is not under `src/`. Spec
section 4.2: explicit set if a mode is given, otherwise cycles
`DISABLED → SONG → QUEUE → DISABLED`; returns the resulting mode. -/
def Queue.setRepeatMode (q : Queue) (mode : Option RepeatMode) : Queue × RepeatMode :=
  let m :=
    match mode with
    | none =>
      match q.repeatMode with
      | .DISABLED => RepeatMode.SONG
      | .SONG => RepeatMode.QUEUE
      | .QUEUE => RepeatMode.DISABLED
    | some m => m
  ({ q with repeatMode := m }, m)

/-- Modelled from the spec: `Queue.seek` is not under `src/`. Spec section
4.2: validates `0 ≤ time ≤ duration` of the current song; restarts the
stream at the given offset. -/
def Queue.seek (q : Queue) (time : ℚ) : Except ErrKind Queue :=
  if 0 ≤ time ∧ time ≤ ((q.songs.head?.map Song.duration).getD 0) then
    .ok { q with currentTime := time }
  else .error (.NUMBER_COMPARE "time")

/-- The registry of queues, keyed by guild id (spec section 4.5: the
`QueueManager` owns the collection of `Queue` instances). -/
abbrev Queues := List (String × Queue)

/-- Modelled from the spec: `QueueManager.get` is not under `src/`. Spec
section 4.5: resolves a guild-identifying input to the registered `Queue` or
`undefined` — a pure lookup keyed by guild identity. -/
def QueueManager.get (queues : Queues) (gid : String) : Option Queue :=
  (queues.find? (fun p => p.1 = gid)).map Prod.snd

/-- Modelled from the spec: `QueueManager.create` is not under `src/`. Spec
section 4.5: creates and registers a new `Queue`, fails if one already
exists for the guild. -/
def QueueManager.create (queues : Queues) (gid : String) (q : Queue) : Except ErrKind Queues :=
  if (QueueManager.get queues gid).isSome then .error .QUEUE_EXISTS
  else .ok ((gid, q) :: queues)

/-- `src/DisTube.ts` lines 358-360: `getQueue` returns
`this.queues.get(guild)` — the registered queue or undefined, without
throwing. -/
def DisTube.getQueue (queues : Queues) (gid : String) : Option Queue :=
  QueueManager.get queues gid

/-- `src/DisTube.ts` lines 362-366 (the private `#getQueue`): throws
`NO_QUEUE` when the guild has no registered queue. -/
def DisTube.getQueueOrThrow (queues : Queues) (gid : String) : Except ErrKind Queue :=
  match DisTube.getQueue queues gid with
  | none => .error .NO_QUEUE
  | some q => .ok q

/-- `src/DisTube.ts` lines 374-376: `pause` delegates to
`#getQueue(guild).pause()`. -/
def DisTube.pause (queues : Queues) (gid : String) : Except ErrKind Queue :=
  (DisTube.getQueueOrThrow queues gid).bind Queue.pause

/-- `src/DisTube.ts` lines 384-386: `resume` delegates to
`#getQueue(guild).resume()`. -/
def DisTube.resume (queues : Queues) (gid : String) : Except ErrKind Queue :=
  (DisTube.getQueueOrThrow queues gid).bind Queue.resume

/-- `src/DisTube.ts` lines 404-406: `stop` delegates to
`#getQueue(guild).stop()`. -/
def DisTube.stop (queues : Queues) (gid : String) : Except ErrKind Queue :=
  (DisTube.getQueueOrThrow queues gid).map Queue.stop

/-- `src/DisTube.ts` lines 423-425: `setVolume` delegates to
`#getQueue(guild).setVolume(percent)`. -/
def DisTube.setVolume (queues : Queues) (gid : String) (percent : ℚ) : Except ErrKind Queue :=
  (DisTube.getQueueOrThrow queues gid).bind (fun q => Queue.setVolume q percent)

/-- `src/DisTube.ts` lines 443-445: `skip` delegates to
`#getQueue(guild).skip()`. -/
def DisTube.skip (queues : Queues) (gid : String) : Except ErrKind (Queue × Song) :=
  (DisTube.getQueueOrThrow queues gid).bind Queue.skip

/-- `src/DisTube.ts` lines 461-463: `previous` delegates to
`#getQueue(guild).previous()`. -/
def DisTube.previous (queues : Queues) (gid : String) : Except ErrKind (Queue × Song) :=
  (DisTube.getQueueOrThrow queues gid).bind Queue.previous

/-- `src/DisTube.ts` lines 478-480: `shuffle` delegates to
`#getQueue(guild).shuffle()`. -/
def DisTube.shuffle (queues : Queues) (gid : String) (rand : List Nat) : Except ErrKind Queue :=
  (DisTube.getQueueOrThrow queues gid).map (fun q => Queue.shuffle q rand)

/-- `src/DisTube.ts` lines 500-502: `jump` delegates to
`#getQueue(guild).jump(num)`. -/
def DisTube.jump (queues : Queues) (gid : String) (num : Int) : Except ErrKind Queue :=
  (DisTube.getQueueOrThrow queues gid).bind (fun q => Queue.jump q num)

/-- `src/DisTube.ts` lines 537-539: `setRepeatMode` delegates to
`#getQueue(guild).setRepeatMode(mode)` and returns the resulting mode. -/
def DisTube.setRepeatMode (queues : Queues) (gid : String) (mode : Option RepeatMode) :
    Except ErrKind (Queue × RepeatMode) :=
  (DisTube.getQueueOrThrow queues gid).map (fun q => Queue.setRepeatMode q mode)

/-- `src/DisTube.ts` lines 557-561: `toggleAutoplay` fetches the queue via
`#getQueue`, flips its autoplay flag and returns the new flag. -/
def DisTube.toggleAutoplay (queues : Queues) (gid : String) : Except ErrKind (Queue × Bool) :=
  match DisTube.getQueue queues gid with
  | none => .error .NO_QUEUE
  | some q =>
    let q2 := { q with autoplay := !q.autoplay }
    .ok (q2, q2.autoplay)

/-- `src/DisTube.ts` lines 568-570: `addRelatedSong` delegates to
`#getQueue(guild).addRelatedSong()`. -/
def DisTube.addRelatedSong (queues : Queues) (gid : String) : Except ErrKind (Queue × Song) :=
  (DisTube.getQueueOrThrow queues gid).bind Queue.addRelatedSong

/-- `src/DisTube.ts` lines 586-588: `seek` delegates to
`#getQueue(guild).seek(time)`. -/
def DisTube.seek (queues : Queues) (gid : String) (time : ℚ) : Except ErrKind Queue :=
  (DisTube.getQueueOrThrow queues gid).bind (fun q => Queue.seek q time)

/-- The downstream calls the body of `play()` can make, recorded in order.
They are modelled as oracle calls: the plugins and the handler are excluded
collaborators. -/
inductive CallOp
  | pluginPlayCall (i : Nat)
  | searchCall
  | searchSongCall
  | resolveCall
  | playPlaylistCall
  | playSongCall
  deriving DecidableEq, Repr

/-- An entry of the trace of a `play()` invocation: a TaskQueue operation
(`queuing(isResolveTask)` at line 198 or `resolve()` at line 234 of
`src/DisTube.ts`) or a downstream call of the body. -/
inductive TraceOp
  | tqQueuing (isResolveTask : Bool)
  | tqResolve
  | call (c : CallOp)
  deriving DecidableEq, Repr

/-- A guild member as far as `play()` inspects it (`isMemberInstance`). -/
structure Member where
  valid : Bool
  deriving DecidableEq, Repr

/-- A guild text channel as far as `play()` inspects it
(`isTextChannelInstance`). -/
structure TextChannel where
  valid : Bool
  deriving DecidableEq, Repr

/-- A message as far as `play()` inspects it (`isMessageInstance` and its
`channel` used as the default text channel). -/
structure Message where
  valid : Bool
  channel : Option TextChannel
  deriving DecidableEq, Repr

/-- A voice channel as far as `play()` inspects it: the
`isSupportedVoiceChannel` check, the guild it belongs to, and
`guild.members.me` used as the default member. -/
structure VoiceChannel where
  supported : Bool
  guildId : String
  botMember : Option Member
  deriving DecidableEq, Repr

/-- The `song` argument of `play()`: a string (with its `isURL` image), a
`Song`, a `SearchResult` or a `Playlist`. -/
inductive PlayInput
  | str (isUrl : Bool)
  | songObj
  | searchResultObj
  | playlistObj
  deriving DecidableEq, Repr

/-- What `handler.resolve` produced: a `Song` or a `Playlist`
(`song instanceof Playlist` at line 218 of `src/DisTube.ts`). -/
inductive Resolved
  | songR
  | playlistR
  deriving DecidableEq, Repr

/-- The fields of a `PlayOptions` object; an absent field is `none` (a field
explicitly set to `undefined` is identified with an absent one). `position`
stores the `Number()` image of `options.position`; an absent field converts
to NaN. -/
structure PlayOptionsObj where
  message : Option Message := none
  textChannel : Option TextChannel := none
  member : Option Member := none
  skip : Option Bool := none
  position : Option JSNum := none
  deriving DecidableEq, Repr

/-- The `options` argument of `play()` before the `isObject` check of line
177 of `src/DisTube.ts`. -/
inductive PlayOptionsVal
  | notObject
  | obj (o : PlayOptionsObj)
  deriving DecidableEq, Repr

/-- `src/DisTube.ts` line 185:
`const position = Number(options.position) || (skip ? 1 : 0);` —
JS `||` takes the right operand when the left is NaN or 0. -/
def effectivePosition (position : Option JSNum) (skip : Bool) : ℚ :=
  match position.getD JSNum.nan with
  | .num x => if x ≠ 0 then x else if skip then 1 else 0
  | .nan => if skip then 1 else 0

/-- Outcomes of the excluded collaborators called by the body of `play()`:
the custom plugins (lines 201-207), `this.search` (line 210),
`handler.searchSong` (line 212), `handler.resolve` (line 217) and
`handler.playPlaylist` / `handler.playSong` (lines 219-221, which receive
the computed `skip` and `position`). -/
structure PlayOracle where
  pluginValidate : Nat → Bool
  pluginPlay : Nat → Except ErrKind Unit
  searchFirst : Except ErrKind Unit
  searchSong : Except ErrKind (Option Unit)
  resolve : Except ErrKind Resolved
  playPlaylist : Bool → ℚ → Except ErrKind Unit
  playSong : Bool → ℚ → Except ErrKind Unit

/-- Prefix a call trace onto the trace of a continuation's result. -/
def withPre (pre : List CallOp) (r : Except ErrKind Unit × List CallOp) :
    Except ErrKind Unit × List CallOp :=
  (r.1, pre ++ r.2)

/-- `src/DisTube.ts` lines 217-222: resolve the song through the handler,
then play it as a playlist or as a single song. -/
def playResolveStep (o : PlayOracle) (skip : Bool) (position : ℚ) :
    Except ErrKind Unit × List CallOp :=
  match o.resolve with
  | .error e => (.error e, [.resolveCall])
  | .ok .playlistR =>
    match o.playPlaylist skip position with
    | .ok _ => (.ok (), [.resolveCall, .playPlaylistCall])
    | .error e => (.error e, [.resolveCall, .playPlaylistCall])
  | .ok .songR =>
    match o.playSong skip position with
    | .ok _ => (.ok (), [.resolveCall, .playSongCall])
    | .error e => (.error e, [.resolveCall, .playSongCall])

/-- `src/DisTube.ts` lines 208-216: a string that is not a URL is searched —
through `this.search` (taking the first result) when no message was given,
otherwise through `handler.searchSong`, which may produce nothing
(`if (!result) return;`). -/
def playSearchStep (o : PlayOracle) (song : PlayInput) (message : Option Message)
    (skip : Bool) (position : ℚ) : Except ErrKind Unit × List CallOp :=
  match song, message with
  | .str false, none =>
    match o.searchFirst with
    | .error e => (.error e, [.searchCall])
    | .ok _ => withPre [.searchCall] (playResolveStep o skip position)
  | .str false, some _ =>
    match o.searchSong with
    | .error e => (.error e, [.searchSongCall])
    | .ok none => (.ok (), [.searchSongCall])
    | .ok (some _) => withPre [.searchSongCall] (playResolveStep o skip position)
  | _, _ => playResolveStep o skip position

/-- `src/DisTube.ts` lines 200-222 — the body of the `try` block of
`play()`: when the song is a string, the first custom plugin validating it
handles it and the call returns early; otherwise the search and resolve
steps run. -/
def playBody (o : PlayOracle) (numPlugins : Nat) (song : PlayInput) (message : Option Message)
    (skip : Bool) (position : ℚ) : Except ErrKind Unit × List CallOp :=
  match song with
  | .str isUrl =>
    match (List.range numPlugins).find? o.pluginValidate with
    | some i =>
      match o.pluginPlay i with
      | .ok _ => (.ok (), [.pluginPlayCall i])
      | .error e => (.error e, [.pluginPlayCall i])
    | none => playSearchStep o (.str isUrl) message skip position
  | s => playSearchStep o s message skip position

/-- `src/DisTube.ts` lines 223-232: a non-DisTubeError escaping the body is
renamed `PlayError` (its message is also prefixed with the song url, a
string-level detail not modelled) and rethrown; DisTubeErrors are rethrown
unchanged. -/
def wrapPlayError : ErrKind → ErrKind
  | .UPSTREAM c => .PLAY_ERROR c
  | e => e

/-- `src/DisTube.ts` lines 196-197:
`const queuing = queue && !queue._taskQueue.hasResolveTask;` — `play()`
acquires the TaskQueue lock exactly when the guild has a queue with no
resolve-class task queued or running. -/
def playAcquiresLock (queues : Queues) (gid : String) : Bool :=
  match DisTube.getQueue queues gid with
  | none => false
  | some q => !q.taskQueue.hasResolveTask

/-- `src/DisTube.ts` lines 198-235: the locked section of `play()` — the
`queuing(true)` acquisition, the `try` body, the catch-clause renaming and
the `finally` release. Returns the outcome and the full operation trace. -/
def playLockedSection (queues : Queues) (numPlugins : Nat) (o : PlayOracle)
    (vc : VoiceChannel) (song : PlayInput) (message : Option Message)
    (skip : Bool) (position : ℚ) : Except ErrKind Unit × List TraceOp :=
  let body := playBody o numPlugins song message skip position
  let res : Except ErrKind Unit :=
    match body.1 with
    | .ok _ => .ok ()
    | .error e => .error (wrapPlayError e)
  if playAcquiresLock queues vc.guildId then
    (res, TraceOp.tqQueuing true :: (body.2.map TraceOp.call ++ [TraceOp.tqResolve]))
  else
    (res, body.2.map TraceOp.call)

/-- The conjunction of the argument validations of `play()`
(`src/DisTube.ts` lines 174-195) on an options object: supported voice
channel, and valid message / text channel / member whenever present after
the defaulting destructure of lines 179-184. -/
def playArgsValid (vc : VoiceChannel) (opts : PlayOptionsObj) : Bool :=
  vc.supported
    && !(optInvalid Message.valid opts.message)
    && !(optInvalid TextChannel.valid (optOr opts.textChannel (opts.message.bind Message.channel)))
    && !(optInvalid Member.valid (optOr opts.member vc.botMember))

/-- Whether the arguments of `play()` pass all validations of lines 174-195
of `src/DisTube.ts` (false in particular when `options` is not an
object). -/
def playInputValid (vc : VoiceChannel) (options : PlayOptionsVal) : Bool :=
  match options with
  | .notObject => false
  | .obj opts => playArgsValid vc opts

/-- `src/DisTube.ts` lines 169-236: the `play()` method. Validations run
first; then the queue lookup and the conditional lock acquisition; then the
body under `try`/`catch`/`finally`. The result is the outcome together with
the ordered trace of TaskQueue operations and downstream calls. -/
def DisTube.play (queues : Queues) (numPlugins : Nat) (o : PlayOracle)
    (vc : VoiceChannel) (song : PlayInput) (options : PlayOptionsVal) :
    Except ErrKind Unit × List TraceOp :=
  if !vc.supported then (.error (.INVALID_TYPE "voiceChannel"), [])
  else
    match options with
    | .notObject => (.error (.INVALID_TYPE "options"), [])
    | .obj opts =>
      let message := opts.message
      let textChannel := optOr opts.textChannel (opts.message.bind Message.channel)
      let member := optOr opts.member vc.botMember
      let skip := opts.skip.getD false
      let position := effectivePosition opts.position skip
      if optInvalid Message.valid message then (.error (.INVALID_TYPE "options.message"), [])
      else if optInvalid TextChannel.valid textChannel then
        (.error (.INVALID_TYPE "options.textChannel"), [])
      else if optInvalid Member.valid member then (.error (.INVALID_TYPE "options.member"), [])
      else playLockedSection queues numPlugins o vc song message skip position

/-- An item returned by the excluded `ytsr` upstream: its `type` field is
`"video"` or not (`src/DisTube.ts` lines 327-330). -/
inductive YtsrItem
  | videoItem
  | playlistItem
  deriving DecidableEq, Repr

/-- A constructed search result: `new SearchResultVideo(i)` for a video
item, `new SearchResultPlaylist(i)` otherwise. -/
inductive SearchRes
  | videoRes
  | playlistRes
  deriving DecidableEq, Repr

/-- `src/DisTube.ts` lines 327-330: convert a ytsr item into a search
result. -/
def convertItem : YtsrItem → SearchRes
  | .videoItem => .videoRes
  | .playlistItem => .playlistRes

/-- The option fields of `search()` before the spread over the defaults
object of line 315 of `src/DisTube.ts`; each loosely typed field is a
JavaScript value, `undef` standing for an absent field. `retried` is the
internal flag read at line 334 and set at line 335. -/
structure SearchOptions where
  type : JSVal := .undef
  limit : JSVal := .undef
  safeSearch : JSVal := .undef
  retried : Bool := false
  deriving DecidableEq, Repr

/-- The `type` field after the defaulting spread of line 315: absent becomes
the string "video". -/
def SearchOptions.effType (o : SearchOptions) : JSVal :=
  match o.type with
  | .undef => .strV "video"
  | v => v

/-- The `limit` field after the defaulting spread of line 315: absent
becomes 10. -/
def SearchOptions.effLimit (o : SearchOptions) : JSVal :=
  match o.limit with
  | .undef => .numV 10
  | v => v

/-- The `safeSearch` field after the defaulting spread of line 315: absent
becomes false. -/
def SearchOptions.effSafe (o : SearchOptions) : JSVal :=
  match o.safeSearch with
  | .undef => .boolV false
  | v => v

/-- `src/DisTube.ts` line 316: the type option must be the string "video" or
"playlist". -/
def typeOk (v : JSVal) : Bool :=
  match v with
  | .strV s => s == "video" || s == "playlist"
  | _ => false

/-- `src/DisTube.ts` line 320: JS `opts.limit < 1` (false for NaN). -/
def limitTooSmall (v : JSVal) : Bool :=
  match v with
  | .numV x => decide (x < 1)
  | _ => false

/-- Conjunction of the four `search()` validations of lines 316-323 of
`src/DisTube.ts`. -/
def searchArgsValid (o : SearchOptions) : Bool :=
  typeOk o.effType && o.effLimit.isNumber && !limitTooSmall o.effLimit && o.effSafe.isBoolean

/-- `src/DisTube.ts` lines 325-332 — one attempt of the `try` block of
`search()`: call ytsr (the excluded upstream is an oracle indexed by the
attempt number), convert the items, and throw `NO_RESULT` when the result
list is empty. -/
def searchAttempt (ytsrO : Nat → Except ErrKind (List YtsrItem)) (attempt : Nat) :
    Except ErrKind (List SearchRes) :=
  match ytsrO attempt with
  | .error e => .error e
  | .ok items =>
    let results := items.map convertItem
    if results.length = 0 then .error .NO_RESULT else .ok results

/-- `src/DisTube.ts` lines 306-338: the `search()` method. The catch clause
rethrows when `options.retried` is set, otherwise sets it and calls
`search` again with the same arguments; that recursive call is unfolded here
(its depth is at most one because `retried` is set to true before
recursing, and its re-validation of the already validated options is a
no-op). Returns the result together with the number of ytsr invocations. -/
def DisTube.search (options : SearchOptions) (ytsrO : Nat → Except ErrKind (List YtsrItem)) :
    Except ErrKind (List SearchRes) × Nat :=
  if !typeOk options.effType then (.error (.INVALID_TYPE "options.type"), 0)
  else if !options.effLimit.isNumber then (.error (.INVALID_TYPE "options.limit"), 0)
  else if limitTooSmall options.effLimit then (.error (.NUMBER_COMPARE "options.limit"), 0)
  else if !options.effSafe.isBoolean then (.error (.INVALID_TYPE "options.safeSearch"), 0)
  else
    match searchAttempt ytsrO 0 with
    | .ok r => (.ok r, 1)
    | .error e =>
      if options.retried then (.error e, 1)
      else
        match searchAttempt ytsrO 1 with
        | .ok r => (.ok r, 2)
        | .error e2 => (.error e2, 2)

/-- An element of the `songs` array given to `createCustomPlaylist()`: a
`Song` instance, a string (with its `isURL` image), or a search result
(with whether its `type` is `SearchResultType.VIDEO`). -/
inductive CSong
  | songInst
  | strIn (isUrl : Bool)
  | searchIn (isVideo : Bool)
  deriving DecidableEq, Repr

/-- JS `song instanceof Song` on a `createCustomPlaylist` element. -/
def CSong.isSongInstance : CSong → Bool
  | .songInst => true
  | _ => false

/-- `isURL(song)` on a `createCustomPlaylist` element (false on
non-strings). -/
def CSong.isURLv : CSong → Bool
  | .strIn u => u
  | _ => false

/-- JS `typeof song === "string"` on a `createCustomPlaylist` element. -/
def CSong.isStringv : CSong → Bool
  | .strIn _ => true
  | _ => false

/-- JS `song.type === SearchResultType.VIDEO` on a `createCustomPlaylist`
element. -/
def CSong.typeIsVideo : CSong → Bool
  | .searchIn v => v
  | _ => false

/-- `src/DisTube.ts` lines 259-261: the filter predicate of
`createCustomPlaylist` — Song instances, URL strings, and video-type search
results pass. -/
def validSongInput (s : CSong) : Bool :=
  s.isSongInstance || s.isURLv || (!s.isStringv && s.typeIsVideo)

/-- The `songs` argument of `createCustomPlaylist()` before the
`Array.isArray` check of line 257 of `src/DisTube.ts`. -/
inductive SongsArg
  | notArray
  | arr (l : List CSong)
  deriving DecidableEq, Repr

/-- The fields of a `CustomPlaylistOptions` object; `parallel` defaults to
true via the spread of line 256 of `src/DisTube.ts`. -/
structure CCPOptions where
  parallel : Option Bool := none
  member : Option Member := none
  deriving DecidableEq, Repr

/-- The playlist value built at line 279 of `src/DisTube.ts`, reduced to its
ordered list of resolved song ids. -/
structure PlaylistE where
  songs : List Nat
  deriving DecidableEq, Repr

/-- `src/DisTube.ts` lines 267-271 — the parallel branch: map every filtered
song to a resolution promise whose rejection is swallowed into `undefined`,
await them all (order preserving), then filter the defined results. The
deterministic resolver returns `none` for a rejected resolution. -/
def resolveParallel (resolver : CSong → Option Nat) (l : List CSong) : List Nat :=
  (l.map (fun song => resolver song)).filterMap id

/-- `src/DisTube.ts` lines 273-276 — the loop of the sequential branch:
await each resolution in order, pushing the (possibly undefined) result onto
the accumulator. -/
def resolveSequentialGo (resolver : CSong → Option Nat) (resolved : List (Option Nat)) :
    List CSong → List (Option Nat)
  | [] => resolved
  | song :: rest => resolveSequentialGo resolver (resolved ++ [resolver song]) rest

/-- `src/DisTube.ts` lines 272-277 — the sequential branch: run the loop,
then filter the defined results. -/
def resolveSequential (resolver : CSong → Option Nat) (l : List CSong) : List Nat :=
  (resolveSequentialGo resolver [] l).filterMap id

/-- `src/DisTube.ts` lines 252-280: the `createCustomPlaylist()` method.
The excluded `handler.resolve` (with its swallowed rejections) is the
deterministic `resolver` oracle. Returns the outcome together with the
number of resolver invocations. -/
def DisTube.createCustomPlaylist (songs : SongsArg) (options : CCPOptions)
    (resolver : CSong → Option Nat) : Except ErrKind PlaylistE × Nat :=
  let parallel := options.parallel.getD true
  match songs with
  | .notArray => (.error (.INVALID_TYPE "songs"), 0)
  | .arr l =>
    if l.length = 0 then (.error .EMPTY_ARRAY, 0)
    else
      let filteredSongs := l.filter validSongInput
      if filteredSongs.length = 0 then (.error .NO_VALID_SONG, 0)
      else if optInvalid Member.valid options.member then
        (.error (.INVALID_TYPE "options.member"), 0)
      else
        let resolvedSongs :=
          if parallel then resolveParallel resolver filteredSongs
          else resolveSequential resolver filteredSongs
        (.ok ⟨resolvedSongs⟩, filteredSongs.length)


/-- Concrete fixtures used by the counterexample and the witnesses. -/
def exSong : Song := ⟨1, 0, []⟩

def exOracle : PlayOracle where
  pluginValidate := fun _ => false
  pluginPlay := fun _ => .ok ()
  searchFirst := .ok ()
  searchSong := .ok (some ())
  resolve := .ok .songR
  playPlaylist := fun _ _ => .ok ()
  playSong := fun _ _ => .ok ()

def exOracleFail : PlayOracle where
  pluginValidate := fun _ => false
  pluginPlay := fun _ => .ok ()
  searchFirst := .ok ()
  searchSong := .ok (some ())
  resolve := .error (.UPSTREAM 7)
  playPlaylist := fun _ _ => .ok ()
  playSong := fun _ _ => .ok ()

def exTQBusy : TaskQueue := ⟨[true]⟩

def exQueueBusy : Queue :=
  ⟨[exSong], [], true, .playing, .DISABLED, false, 100, 100, 0, exTQBusy⟩

def exQueuesBusy : Queues := [("g", exQueueBusy)]

def exQueue : Queue :=
  ⟨[exSong], [], true, .playing, .DISABLED, false, 100, 100, 0, ⟨[]⟩⟩

def exQueues : Queues := [("g", exQueue)]

def exVC : VoiceChannel := ⟨true, "g", some ⟨true⟩⟩

def exVCBad : VoiceChannel := ⟨false, "g", some ⟨true⟩⟩

def exYtsr : Nat → Except ErrKind (List YtsrItem) :=
  fun n => if n = 0 then .ok [] else .ok [.videoItem]

def exResolver : CSong → Option Nat := fun _ => some 1

theorem tqQueuing_not_mem_map_call (l : List CallOp) (b : Bool) :
    TraceOp.tqQueuing b ∉ l.map TraceOp.call := by
  simp [List.mem_map]

theorem tqResolve_not_mem_map_call (l : List CallOp) :
    TraceOp.tqResolve ∉ l.map TraceOp.call := by
  simp [List.mem_map]

theorem playLockedSection_trace (queues : Queues) (numPlugins : Nat) (o : PlayOracle)
    (vc : VoiceChannel) (song : PlayInput) (message : Option Message)
    (skip : Bool) (position : ℚ) :
    (playLockedSection queues numPlugins o vc song message skip position).2
      = (if playAcquiresLock queues vc.guildId then
          TraceOp.tqQueuing true ::
            ((playBody o numPlugins song message skip position).2.map TraceOp.call
              ++ [TraceOp.tqResolve])
        else (playBody o numPlugins song message skip position).2.map TraceOp.call) := by
  simp only [playLockedSection]
  split <;> rfl

theorem play_valid_eq (queues : Queues) (numPlugins : Nat) (o : PlayOracle)
    (vc : VoiceChannel) (song : PlayInput) (opts : PlayOptionsObj)
    (hv : playArgsValid vc opts = true) :
    DisTube.play queues numPlugins o vc song (.obj opts)
      = playLockedSection queues numPlugins o vc song opts.message (opts.skip.getD false)
          (effectivePosition opts.position (opts.skip.getD false)) := by
  simp only [playArgsValid, Bool.and_eq_true, Bool.not_eq_true'] at hv
  obtain ⟨⟨⟨h1, h2⟩, h3⟩, h4⟩ := hv
  simp [DisTube.play, h1, h2, h3, h4]

theorem play_invalid_eq (queues : Queues) (numPlugins : Nat) (o : PlayOracle)
    (vc : VoiceChannel) (song : PlayInput) (options : PlayOptionsVal)
    (hv : playInputValid vc options = false) :
    ∃ p : String, DisTube.play queues numPlugins o vc song options
      = (.error (.INVALID_TYPE p), []) := by
  cases options with
  | notObject =>
    by_cases hs : vc.supported
    · exact ⟨"options", by simp [DisTube.play, hs]⟩
    · exact ⟨"voiceChannel", by simp [DisTube.play, hs]⟩
  | obj opts =>
    simp only [playInputValid] at hv
    by_cases h1 : vc.supported
    case neg => exact ⟨"voiceChannel", by simp [DisTube.play, h1]⟩
    by_cases h2 : optInvalid Message.valid opts.message = true
    case pos => exact ⟨"options.message", by simp [DisTube.play, h1, h2]⟩
    by_cases h3 : optInvalid TextChannel.valid
        (optOr opts.textChannel (opts.message.bind Message.channel)) = true
    case pos => exact ⟨"options.textChannel", by simp [DisTube.play, h1, h2, h3]⟩
    by_cases h4 : optInvalid Member.valid (optOr opts.member vc.botMember) = true
    case pos => exact ⟨"options.member", by simp [DisTube.play, h1, h2, h3, h4]⟩
    exfalso
    rw [playArgsValid] at hv
    simp [h1, h2, h3, h4] at hv

theorem play_trace_shape (queues : Queues) (numPlugins : Nat) (o : PlayOracle)
    (vc : VoiceChannel) (song : PlayInput) (options : PlayOptionsVal) :
    (∃ l : List CallOp, (DisTube.play queues numPlugins o vc song options).2 = l.map TraceOp.call)
    ∨ ∃ l : List CallOp, (DisTube.play queues numPlugins o vc song options).2
        = TraceOp.tqQueuing true :: (l.map TraceOp.call ++ [TraceOp.tqResolve]) := by
  by_cases hvv : playInputValid vc options = true
  · cases options with
    | notObject => simp [playInputValid] at hvv
    | obj opts =>
      rw [play_valid_eq queues numPlugins o vc song opts (by simpa [playInputValid] using hvv)]
      rw [playLockedSection_trace]
      by_cases ha : playAcquiresLock queues vc.guildId = true
      · right
        exact ⟨(playBody o numPlugins song opts.message (opts.skip.getD false)
                  (effectivePosition opts.position (opts.skip.getD false))).2, by simp [ha]⟩
      · left
        exact ⟨(playBody o numPlugins song opts.message (opts.skip.getD false)
                  (effectivePosition opts.position (opts.skip.getD false))).2,
               by simp [Bool.not_eq_true] at ha; simp [ha]⟩
  · obtain ⟨p, hp⟩ := play_invalid_eq queues numPlugins o vc song options
      (by simpa [Bool.not_eq_true] using hvv)
    left
    exact ⟨[], by rw [hp]; rfl⟩










/-- C1 counterexample: the guild "g" already has a Queue whose TaskQueue has
a resolve-class task queued (`hasResolveTask = true`). A second `play()`
call then resolves and plays the song without ever awaiting `queuing(true)`:
its trace holds no TaskQueue operation at all, refuting the claim that the
second call enqueues a resolve-class task behind the first before resolving
or mutating. -/
theorem play_c1_counterexample :
    exQueueBusy.taskQueue.hasResolveTask = true
    ∧ (DisTube.play exQueuesBusy 0 exOracle exVC .songObj (.obj {})).2
        = [TraceOp.call .resolveCall, TraceOp.call .playSongCall]
    ∧ (DisTube.play exQueuesBusy 0 exOracle exVC .songObj (.obj {})).2.count
        (TraceOp.tqQueuing true) = 0 := by
  refine ⟨rfl, rfl, rfl⟩

/-- C1 (amended): for a guild that already has a Queue, a `play()` call
passing validation awaits `queuing(true)` exactly when the queue's TaskQueue
has no resolve-class task queued or running; when `hasResolveTask` is true
it proceeds without acquiring the play-level lock. In neither case can a
second Queue be registered for the guild: `QueueManager.create` fails when
one exists. -/
theorem play_second_call_lock_guard (queues : Queues) (numPlugins : Nat) (o : PlayOracle)
    (vc : VoiceChannel) (song : PlayInput) (opts : PlayOptionsObj) (q q2 : Queue)
    (hv : playArgsValid vc opts = true)
    (hq : DisTube.getQueue queues vc.guildId = some q) :
    ((DisTube.play queues numPlugins o vc song (.obj opts)).2.count (TraceOp.tqQueuing true)
      = if q.taskQueue.hasResolveTask then 0 else 1)
    ∧ QueueManager.create queues vc.guildId q2 = .error .QUEUE_EXISTS := by
  constructor
  · rw [play_valid_eq queues numPlugins o vc song opts hv, playLockedSection_trace]
    have hacq : playAcquiresLock queues vc.guildId = !q.taskQueue.hasResolveTask := by
      simp [playAcquiresLock, hq]
    rw [hacq]
    cases hrt : q.taskQueue.hasResolveTask with
    | true =>
      simp only [Bool.not_true, if_false, if_pos]
      exact List.count_eq_zero.mpr (tqQueuing_not_mem_map_call _ _)
    | false =>
      simp only [Bool.not_false, if_true]
      rw [List.count_cons]
      rw [List.count_append]
      rw [List.count_eq_zero.mpr (tqQueuing_not_mem_map_call _ _)]
      simp
  · have hg : QueueManager.get queues vc.guildId = some q := hq
    simp [QueueManager.create, hg]

/-- Witness for C1 (amended) at a concrete busy queue: the second call
performs no `queuing(true)` and creating a second queue for the guild
fails. -/
theorem play_second_call_lock_guard_witness :
    ((DisTube.play exQueuesBusy 0 exOracle exVC .songObj (.obj {})).2.count
        (TraceOp.tqQueuing true)
      = if exQueueBusy.taskQueue.hasResolveTask then 0 else 1)
    ∧ QueueManager.create exQueuesBusy "g" exQueue = .error .QUEUE_EXISTS :=
  play_second_call_lock_guard exQueuesBusy 0 exOracle exVC .songObj {} exQueueBusy exQueue
    (by decide) rfl

/-- C2: every `play()` invocation that acquires the TaskQueue lock (its
trace holds a `queuing(true)`) releases it on every exit path — the trace
ends with the `finally` clause's `resolve()` and holds exactly one
acquisition and one release, whatever the body's outcome (normal return,
early return, or thrown error). -/
theorem play_lock_released_on_every_exit (queues : Queues) (numPlugins : Nat) (o : PlayOracle)
    (vc : VoiceChannel) (song : PlayInput) (options : PlayOptionsVal)
    (hacq : TraceOp.tqQueuing true ∈ (DisTube.play queues numPlugins o vc song options).2) :
    (DisTube.play queues numPlugins o vc song options).2.getLast? = some TraceOp.tqResolve
    ∧ (DisTube.play queues numPlugins o vc song options).2.count TraceOp.tqResolve = 1
    ∧ (DisTube.play queues numPlugins o vc song options).2.count (TraceOp.tqQueuing true) = 1 := by
  rcases play_trace_shape queues numPlugins o vc song options with ⟨l, hl⟩ | ⟨l, hl⟩
  · rw [hl] at hacq
    exact absurd hacq (tqQueuing_not_mem_map_call l true)
  · rw [hl]
    refine ⟨?_, ?_, ?_⟩
    · rw [show TraceOp.tqQueuing true :: (l.map TraceOp.call ++ [TraceOp.tqResolve])
            = (TraceOp.tqQueuing true :: l.map TraceOp.call) ++ [TraceOp.tqResolve] by simp]
      exact List.getLast?_concat _
    · rw [List.count_cons, List.count_append,
          List.count_eq_zero.mpr (tqResolve_not_mem_map_call l)]
      simp
    · rw [List.count_cons, List.count_append,
          List.count_eq_zero.mpr (tqQueuing_not_mem_map_call l true)]
      simp

/-- Witness for C2 at a concrete input whose body throws (the handler's
resolve fails): the lock is still released last. -/
theorem play_lock_released_witness :
    (DisTube.play exQueues 0 exOracleFail exVC .songObj (.obj {})).2.getLast?
        = some TraceOp.tqResolve
    ∧ (DisTube.play exQueues 0 exOracleFail exVC .songObj (.obj {})).2.count
        TraceOp.tqResolve = 1
    ∧ (DisTube.play exQueues 0 exOracleFail exVC .songObj (.obj {})).2.count
        (TraceOp.tqQueuing true) = 1 :=
  play_lock_released_on_every_exit exQueues 0 exOracleFail exVC .songObj (.obj {}) (by decide)

/-- C3: a `play()` call with an invalid argument (unsupported voice channel,
non-object options, or an invalid message, text channel or member) fails
with a synchronous invalid-argument error and an empty operation trace: no
TaskQueue operation and no downstream call happens, so the TaskQueue and the
guild's Queue state are untouched. -/
theorem play_invalid_arguments_reject_before_lock (queues : Queues) (numPlugins : Nat)
    (o : PlayOracle) (vc : VoiceChannel) (song : PlayInput) (options : PlayOptionsVal)
    (hv : playInputValid vc options = false) :
    (∃ p : String, (DisTube.play queues numPlugins o vc song options).1
        = .error (.INVALID_TYPE p)
      ∧ ErrKind.isInvalidArgument (.INVALID_TYPE p) = true)
    ∧ (DisTube.play queues numPlugins o vc song options).2 = [] := by
  obtain ⟨p, hp⟩ := play_invalid_eq queues numPlugins o vc song options hv
  exact ⟨⟨p, by rw [hp], rfl⟩, by rw [hp]⟩


/-- Witness for C3 at a concrete unsupported voice channel. -/
theorem play_invalid_arguments_witness :
    (∃ p : String, (DisTube.play exQueues 0 exOracle exVCBad .songObj (.obj {})).1
        = .error (.INVALID_TYPE p)
      ∧ ErrKind.isInvalidArgument (.INVALID_TYPE p) = true)
    ∧ (DisTube.play exQueues 0 exOracle exVCBad .songObj (.obj {})).2 = [] :=
  play_invalid_arguments_reject_before_lock exQueues 0 exOracle exVCBad .songObj (.obj {})
    (by decide)

theorem searchAttempt_ok_ne_nil (ytsrO : Nat → Except ErrKind (List YtsrItem)) (i : Nat)
    (r : List SearchRes) (h : searchAttempt ytsrO i = .ok r) : r ≠ [] := by
  unfold searchAttempt at h
  cases hy : ytsrO i with
  | error e => rw [hy] at h; exact absurd h (by simp)
  | ok items =>
    rw [hy] at h
    simp only [] at h
    split at h
    · exact absurd h (by simp)
    · rename_i hlen
      intro hnil
      apply hlen
      have : items.map convertItem = r := by injection h
      rw [this, hnil]
      rfl

theorem search_valid_unfold (o : SearchOptions) (ytsrO : Nat → Except ErrKind (List YtsrItem))
    (hv : searchArgsValid o = true) (hr : o.retried = false) :
    DisTube.search o ytsrO
      = (match searchAttempt ytsrO 0 with
         | .ok r => (.ok r, 1)
         | .error _ =>
           match searchAttempt ytsrO 1 with
           | .ok r => (.ok r, 2)
           | .error e2 => (.error e2, 2)) := by
  simp only [searchArgsValid, Bool.and_eq_true, Bool.not_eq_true'] at hv
  obtain ⟨⟨⟨h1, h2⟩, h3⟩, h4⟩ := hv
  simp [DisTube.search, h1, h2, h3, h4, hr]

/-- C4: a validated `search()` with the `retried` flag unset either returns
a non-empty result list or throws; when the first attempt fails (a thrown
upstream error or the zero-item `NO_RESULT` case) it retries exactly once
with the same arguments, the retry's outcome — success or error — is
returned as is, and no more than two upstream calls are ever made. -/
theorem search_retries_exactly_once (o : SearchOptions)
    (ytsrO : Nat → Except ErrKind (List YtsrItem))
    (hv : searchArgsValid o = true) (hr : o.retried = false) :
    (∀ r, (DisTube.search o ytsrO).1 = .ok r → r ≠ [])
    ∧ (DisTube.search o ytsrO).2 ≤ 2
    ∧ (∀ r, searchAttempt ytsrO 0 = .ok r → DisTube.search o ytsrO = (.ok r, 1))
    ∧ ∀ e, searchAttempt ytsrO 0 = .error e →
        DisTube.search o ytsrO = (searchAttempt ytsrO 1, 2) := by
  rw [search_valid_unfold o ytsrO hv hr]
  cases h0 : searchAttempt ytsrO 0 with
  | ok r0 =>
    refine ⟨?_, by simp, ?_, ?_⟩
    · intro r hre
      injection hre with h
      exact h ▸ searchAttempt_ok_ne_nil ytsrO 0 r0 h0
    · intro r hre
      injection hre with h
      rw [h]
    · intro e hre
      exact absurd hre (by simp)
  | error e0 =>
    cases h1 : searchAttempt ytsrO 1 with
    | ok r1 =>
      refine ⟨?_, by simp, ?_, ?_⟩
      · intro r hre
        injection hre with h
        exact h ▸ searchAttempt_ok_ne_nil ytsrO 1 r1 h1
      · intro r hre
        exact absurd hre (by simp)
      · intro e hre
        rfl
    | error e1 =>
      refine ⟨?_, by simp, ?_, ?_⟩
      · intro r hre
        exact absurd hre (by simp)
      · intro r hre
        exact absurd hre (by simp)
      · intro e hre
        rfl


/-- Witness for C4: the first attempt yields zero items (reported as
`NO_RESULT`), the retry succeeds, and the search returns the retry's
non-empty result after exactly two upstream calls. -/
theorem search_retries_witness :
    DisTube.search {} exYtsr = (.ok [SearchRes.videoRes], 2) := by
  have h := (search_retries_exactly_once {} exYtsr (by decide) rfl).2.2.2
    ErrKind.NO_RESULT rfl
  rw [h]
  rfl


/-- C5: `createCustomPlaylist()` rejects an empty songs array with
`EMPTY_ARRAY` and a non-empty array none of whose elements is a Song
instance, a URL string, or a video-type search result with
`NO_VALID_SONG`; in both cases zero resolver invocations happen, so the
errors precede any song resolution. -/
theorem ccp_input_validation (l : List CSong) (options : CCPOptions)
    (resolver : CSong → Option Nat) :
    (l = [] →
      DisTube.createCustomPlaylist (.arr l) options resolver = (.error .EMPTY_ARRAY, 0))
    ∧ (l ≠ [] → (∀ s ∈ l, validSongInput s = false) →
      DisTube.createCustomPlaylist (.arr l) options resolver = (.error .NO_VALID_SONG, 0)) := by
  constructor
  · rintro rfl
    rfl
  · intro hne hall
    have hf : l.filter validSongInput = [] := by
      rw [List.filter_eq_nil_iff]
      intro a ha
      simp [hall a ha]
    simp [DisTube.createCustomPlaylist, hf, List.length_eq_zero, hne]

/-- Witness for C5: the empty array and a singleton array holding only a
non-URL string are both rejected with zero resolver calls. -/
theorem ccp_input_validation_witness :
    DisTube.createCustomPlaylist (.arr []) {} exResolver = (.error .EMPTY_ARRAY, 0)
    ∧ DisTube.createCustomPlaylist (.arr [CSong.strIn false]) {} exResolver
        = (.error .NO_VALID_SONG, 0) :=
  ⟨(ccp_input_validation [] {} exResolver).1 rfl,
   (ccp_input_validation [CSong.strIn false] {} exResolver).2 (by decide) (by decide)⟩

theorem resolveSequentialGo_eq (resolver : CSong → Option Nat) (l : List CSong) :
    ∀ acc, resolveSequentialGo resolver acc l = acc ++ l.map (fun song => resolver song) := by
  induction l with
  | nil => intro acc; simp [resolveSequentialGo]
  | cons s rest ih =>
    intro acc
    simp [resolveSequentialGo, ih]

theorem resolve_branches_eq (resolver : CSong → Option Nat) (l : List CSong) :
    resolveParallel resolver l = resolveSequential resolver l := by
  unfold resolveParallel resolveSequential
  rw [resolveSequentialGo_eq]
  simp

theorem resolveParallel_eq_filterMap (resolver : CSong → Option Nat) (l : List CSong) :
    resolveParallel resolver l = l.filterMap resolver := by
  induction l with
  | nil => rfl
  | cons s rest ih =>
    cases h : resolver s <;>
      simp [resolveParallel, List.filterMap_cons, h] at ih ⊢

/-- C10: the parallel and sequential branches of `createCustomPlaylist()`
agree for every input and every deterministic resolver: both resolve the
filtered songs in input order, swallow each resolution failure (a failed
element contributes nothing and no error propagates), and keep exactly the
successfully resolved songs in input order — both equal the filterMap of
the resolver over the filtered input. -/
theorem ccp_parallel_eq_sequential (songs : SongsArg) (options : CCPOptions)
    (resolver : CSong → Option Nat) :
    DisTube.createCustomPlaylist songs { options with parallel := some true } resolver
      = DisTube.createCustomPlaylist songs { options with parallel := some false } resolver
    ∧ ∀ l : List CSong,
        resolveParallel resolver l = resolveSequential resolver l
        ∧ resolveParallel resolver l = l.filterMap resolver := by
  refine ⟨?_, fun l => ⟨resolve_branches_eq resolver l, resolveParallel_eq_filterMap resolver l⟩⟩
  cases songs with
  | notArray => rfl
  | arr l =>
    simp [DisTube.createCustomPlaylist, resolve_branches_eq]

/-- C6: for a guild with a registered Queue, `setVolume` validates
`percent > 0`: zero or a negative percent fails with an invalid-argument
error (producing no updated queue, so the volume is unchanged), while
`setVolume 150` succeeds and both the queue's volume and the active
stream's volume become 150. -/
theorem setVolume_validates_and_applies (queues : Queues) (gid : String) (q : Queue)
    (hq : DisTube.getQueue queues gid = some q) :
    (∀ percent : ℚ, percent ≤ 0 →
      DisTube.setVolume queues gid percent = .error (.NUMBER_COMPARE "percent"))
    ∧ ErrKind.isInvalidArgument (.NUMBER_COMPARE "percent") = true
    ∧ DisTube.setVolume queues gid 150 = .ok { q with volume := 150, streamVolume := 150 }
    ∧ ∀ q2, DisTube.setVolume queues gid 150 = .ok q2 →
        q2.volume = 150 ∧ q2.streamVolume = 150 := by
  have hth : DisTube.getQueueOrThrow queues gid = .ok q := by
    simp [DisTube.getQueueOrThrow, hq]
  refine ⟨?_, rfl, ?_, ?_⟩
  · intro percent hp
    simp [DisTube.setVolume, hth, Except.bind, Queue.setVolume, not_lt.mpr hp]
  · simp [DisTube.setVolume, hth, Except.bind, Queue.setVolume]
  · intro q2 h2
    simp [DisTube.setVolume, hth, Except.bind, Queue.setVolume] at h2
    rw [← h2]
    exact ⟨rfl, rfl⟩

/-- Witness for C6 at a concrete registered queue. -/
theorem setVolume_witness :
    DisTube.setVolume exQueues "g" 0 = .error (.NUMBER_COMPARE "percent")
    ∧ DisTube.setVolume exQueues "g" (-5) = .error (.NUMBER_COMPARE "percent")
    ∧ DisTube.setVolume exQueues "g" 150
        = .ok { exQueue with volume := 150, streamVolume := 150 } :=
  ⟨(setVolume_validates_and_applies exQueues "g" exQueue rfl).1 0 le_rfl,
   (setVolume_validates_and_applies exQueues "g" exQueue rfl).1 (-5) (by norm_num),
   (setVolume_validates_and_applies exQueues "g" exQueue rfl).2.2.1⟩

/-- C7: for a guild with a registered Queue, `setRepeatMode()` with no
argument cycles `DISABLED → SONG → QUEUE → DISABLED`, stores and returns
the resulting mode, and three successive no-argument calls return the queue
to its starting mode. -/
theorem setRepeatMode_cycles (queues : Queues) (gid : String) (q : Queue)
    (hq : DisTube.getQueue queues gid = some q) :
    DisTube.setRepeatMode queues gid none = .ok (Queue.setRepeatMode q none)
    ∧ (Queue.setRepeatMode q none).1.repeatMode = (Queue.setRepeatMode q none).2
    ∧ (Queue.setRepeatMode { q with repeatMode := .DISABLED } none).2 = .SONG
    ∧ (Queue.setRepeatMode { q with repeatMode := .SONG } none).2 = .QUEUE
    ∧ (Queue.setRepeatMode { q with repeatMode := .QUEUE } none).2 = .DISABLED
    ∧ (Queue.setRepeatMode (Queue.setRepeatMode (Queue.setRepeatMode q none).1 none).1 none).2
        = q.repeatMode
    ∧ (Queue.setRepeatMode
        (Queue.setRepeatMode (Queue.setRepeatMode q none).1 none).1 none).1.repeatMode
        = q.repeatMode := by
  have hth : DisTube.getQueueOrThrow queues gid = .ok q := by
    simp [DisTube.getQueueOrThrow, hq]
  refine ⟨?_, rfl, rfl, rfl, rfl, ?_, ?_⟩
  · simp [DisTube.setRepeatMode, hth, Except.map]
  · cases hm : q.repeatMode <;> simp [Queue.setRepeatMode, hm]
  · cases hm : q.repeatMode <;> simp [Queue.setRepeatMode, hm]

/-- Witness for C7 at a concrete registered queue (starting mode
`DISABLED`). -/
theorem setRepeatMode_witness :
    DisTube.setRepeatMode exQueues "g" none = .ok (Queue.setRepeatMode exQueue none)
    ∧ (Queue.setRepeatMode
        (Queue.setRepeatMode (Queue.setRepeatMode exQueue none).1 none).1 none).2
        = exQueue.repeatMode :=
  ⟨(setRepeatMode_cycles exQueues "g" exQueue rfl).1,
   (setRepeatMode_cycles exQueues "g" exQueue rfl).2.2.2.2.2.1⟩

/-- C8: when a guild has no registered Queue, `getQueue` returns none
without throwing, while every queue-requiring operation — pause, resume,
stop, setVolume, skip, previous, shuffle, jump, setRepeatMode,
toggleAutoplay, addRelatedSong and seek — fails with the not-found
`NO_QUEUE` error. -/
theorem no_queue_behavior (queues : Queues) (gid : String)
    (hq : DisTube.getQueue queues gid = none) :
    DisTube.getQueue queues gid = none
    ∧ DisTube.pause queues gid = .error .NO_QUEUE
    ∧ DisTube.resume queues gid = .error .NO_QUEUE
    ∧ DisTube.stop queues gid = .error .NO_QUEUE
    ∧ (∀ p : ℚ, DisTube.setVolume queues gid p = .error .NO_QUEUE)
    ∧ DisTube.skip queues gid = .error .NO_QUEUE
    ∧ DisTube.previous queues gid = .error .NO_QUEUE
    ∧ (∀ rand, DisTube.shuffle queues gid rand = .error .NO_QUEUE)
    ∧ (∀ num, DisTube.jump queues gid num = .error .NO_QUEUE)
    ∧ (∀ mode, DisTube.setRepeatMode queues gid mode = .error .NO_QUEUE)
    ∧ DisTube.toggleAutoplay queues gid = .error .NO_QUEUE
    ∧ DisTube.addRelatedSong queues gid = .error .NO_QUEUE
    ∧ ∀ t : ℚ, DisTube.seek queues gid t = .error .NO_QUEUE := by
  have hth : DisTube.getQueueOrThrow queues gid = .error .NO_QUEUE := by
    simp [DisTube.getQueueOrThrow, hq]
  refine ⟨hq, ?_, ?_, ?_, fun p => ?_, ?_, ?_, fun rand => ?_, fun num => ?_, fun mode => ?_,
    ?_, ?_, fun t => ?_⟩
  · simp [DisTube.pause, hth, Except.bind]
  · simp [DisTube.resume, hth, Except.bind]
  · simp [DisTube.stop, hth, Except.map]
  · simp [DisTube.setVolume, hth, Except.bind]
  · simp [DisTube.skip, hth, Except.bind]
  · simp [DisTube.previous, hth, Except.bind]
  · simp [DisTube.shuffle, hth, Except.map]
  · simp [DisTube.jump, hth, Except.bind]
  · simp [DisTube.setRepeatMode, hth, Except.map]
  · simp [DisTube.toggleAutoplay, hq]
  · simp [DisTube.addRelatedSong, hth, Except.bind]
  · simp [DisTube.seek, hth, Except.bind]

/-- Witness for C8: an empty registry has no queue for guild "g"; a sample
of the operations all fail with `NO_QUEUE`. -/
theorem no_queue_witness :
    DisTube.getQueue [] "g" = none
    ∧ DisTube.pause [] "g" = .error .NO_QUEUE
    ∧ DisTube.setVolume [] "g" 50 = .error .NO_QUEUE
    ∧ DisTube.jump [] "g" 2 = .error .NO_QUEUE
    ∧ DisTube.seek [] "g" 3 = .error .NO_QUEUE :=
  ⟨(no_queue_behavior [] "g" rfl).1,
   (no_queue_behavior [] "g" rfl).2.1,
   (no_queue_behavior [] "g" rfl).2.2.2.2.1 50,
   (no_queue_behavior [] "g" rfl).2.2.2.2.2.2.2.2.1 2,
   (no_queue_behavior [] "g" rfl).2.2.2.2.2.2.2.2.2.2.2.2 3⟩

/-- C9: the effective insert position of `play()` is `Number(options.position)`
when that is a non-zero number, and otherwise (an explicit 0, a NaN-valued
or non-numeric position, or an absent one) defaults to 1 when `skip` is
true and 0 when `skip` is false; in particular an explicit position of 0
with `skip = true` yields position 1. -/
theorem play_effective_position (skip : Bool) :
    (∀ x : ℚ, x ≠ 0 → effectivePosition (some (.num x)) skip = x)
    ∧ effectivePosition (some (.num 0)) skip = (if skip then 1 else 0)
    ∧ effectivePosition (some .nan) skip = (if skip then 1 else 0)
    ∧ effectivePosition none skip = (if skip then 1 else 0)
    ∧ effectivePosition (some (.num 0)) true = 1
    ∧ effectivePosition (some .nan) true = 1 := by
  refine ⟨fun x hx => ?_, ?_, rfl, rfl, ?_, rfl⟩
  · simp [effectivePosition, hx]
  · simp [effectivePosition]
  · simp [effectivePosition]

/-- Witness for C9: a non-zero explicit position is kept; an explicit 0
with skip is turned into 1. -/
theorem play_effective_position_witness :
    effectivePosition (some (.num 5)) true = 5
    ∧ effectivePosition (some (.num 0)) true = 1 :=
  ⟨(play_effective_position true).1 5 (by norm_num),
   (play_effective_position true).2.2.2.2.1⟩
